import Mathlib

/-!
Verification development for the DeepResearch repository.

The repository is a two-phase form wizard: a topic is submitted, a
question-generation agent returns a `Questions` value, the user answers
three clarifying questions, and an enriched query string is streamed to
an external research manager. The definitions below embed the visible
code (`src/deep_research.py`, `src/questions_generator_agent.py`):
pure string formatting becomes Lean string functions, the external
agent and research-manager calls become function parameters, the
fallible list indexing becomes `Option`, and the gradio wiring becomes
an explicit state machine on a `UIState` record.
-/

namespace DeepResearch

/-- Embeds `Question` from `src/questions_generator_agent.py`:
a pydantic model with a single string field `question`. -/
structure Question where
  question : String
deriving DecidableEq, Repr

/-- Embeds `Questions` from `src/questions_generator_agent.py`:
a pydantic model holding `questions : list[Question]`, with no
cardinality constraint in the schema itself. -/
structure Questions where
  questions : List Question
deriving DecidableEq, Repr

/-- Embeds `enrichQuery` from `src/deep_research.py` (lines 7-20): the
f-string template splicing the topic and the three question/answer
pairs into one composite prompt string.  Every line of the template
body is indented by eight spaces and the closing line by four, exactly
as in the Python triple-quoted f-string. -/
def enrichQuery (query question1 question2 question3 answer1 answer2 answer3 : String) : String :=
  "\n        Main Topic:\n        " ++ query ++
  "\n        Clarifications:\n        Q1: " ++ question1 ++
  "\n        A1: " ++ answer1 ++
  "\n        Q2: " ++ question2 ++
  "\n        A2: " ++ answer2 ++
  "\n        Q3: " ++ question3 ++
  "\n        A3: " ++ answer3 ++
  "\n    "

/-- Number of occurrences of `pat` as a contiguous substring of `s`,
counted by starting position. -/
def countOccur (pat s : List Char) : Nat :=
  (List.range (s.length + 1)).countP (fun i => (s.drop i).take pat.length == pat)

/-- `pat` occurs as a contiguous substring of `s`. -/
def isSubstrOf (pat s : List Char) : Prop :=
  ∃ l r, s = l ++ pat ++ r

/-- The patterns `ps` all occur in `s` as contiguous substrings, in the
given order: each pattern is found in the remainder of `s` after the
previous pattern's occurrence. -/
def appearInOrder (s : List Char) : List (List Char) → Prop
  | [] => True
  | p :: ps => ∃ l r, s = l ++ p ++ r ∧ appearInOrder r ps

/-- Embeds the 9-tuple returned by `run_questions_generation`
(`src/deep_research.py` lines 42-52), in wiring order
`[stored_query, stored_q1, stored_q2, stored_q3, followup_section,
first_section, q1, q2, q3]`.  The two `gr.update(visible=True)` values
become the two visibility Booleans; each `gr.update(label=..., value="",
interactive=True)` becomes a label/value/interactive triple. -/
structure GenOutputs where
  storedQuery : String
  storedQ1 : String
  storedQ2 : String
  storedQ3 : String
  followupVisible : Bool
  firstSectionVisible : Bool
  q1Label : String
  q1Value : String
  q1Interactive : Bool
  q2Label : String
  q2Value : String
  q2Interactive : Bool
  q3Label : String
  q3Value : String
  q3Interactive : Bool
deriving DecidableEq, Repr

/-- Embeds `run_questions_generation` (`src/deep_research.py` lines
36-52).  The external `ResearchManager().run(query)` call is the
parameter `agent`.  The Python indexes `questions.questions[0]`, `[1]`,
`[2]` unconditionally; the fallible indexing is embedded as `Option`
bind, so a list shorter than 3 produces `none` (the IndexError) exactly
where the Python raises.  Note that the update sent to `first_section`
is literally `gr.update(visible=True)` in the source, despite the
adjacent comment `# hide first input section`, so
`firstSectionVisible` is `true`. -/
def run_questions_generation (agent : String → Questions) (query : String) :
    Option GenOutputs := do
  let questions := agent query
  let Q1 ← questions.questions[0]?
  let Q2 ← questions.questions[1]?
  let Q3 ← questions.questions[2]?
  pure ⟨query, Q1.question, Q2.question, Q3.question,
        true, true,
        Q1.question, "", true,
        Q2.question, "", true,
        Q3.question, "", true⟩

/-- The body of the `async for chunk in ...: yield chunk` loop in
`run_full` (`src/deep_research.py` lines 33-34): each arriving chunk is
yielded onward, one by one. -/
def forwardChunks : List String → List String
  | [] => []
  | c :: rest => c :: forwardChunks rest

/-- Embeds `run_full` (`src/deep_research.py` lines 22-34).  The
external `ResearchManager().run_full` stream is the parameter `rm`,
an asynchronous chunk stream modeled as the list of chunks in arrival
order. -/
def run_full (rm : String → List String)
    (query question1 question2 question3 answer1 answer2 answer3 : String) : List String :=
  forwardChunks (rm (enrichQuery query question1 question2 question3 answer1 answer2 answer3))

/-- The gradio session state of the wizard (`src/deep_research.py`
lines 54-76): the four `gr.State()` slots (initially unset, hence
`Option`), the topic textbox, the visibility of the two `gr.Column`
sections, the label/value of the three answer textboxes `q1 q2 q3`,
and the chunks rendered to the report area in arrival order. -/
structure UIState where
  storedQuery : Option String
  storedQ1 : Option String
  storedQ2 : Option String
  storedQ3 : Option String
  queryTextbox : String
  firstVisible : Bool
  followupVisible : Bool
  q1Label : String
  q1Value : String
  q2Label : String
  q2Value : String
  q3Label : String
  q3Value : String
  report : List String
deriving DecidableEq, Repr

/-- The state right after `ui` is built: the four `gr.State()` slots
hold nothing, `first_section` is visible, `followup_section` was
created with `visible=False`, and the three answer textboxes carry
their construction labels `""`, `"q2"`, `"q3"`. -/
def initState : UIState :=
  ⟨none, none, none, none, "", true, false, "", "", "q2", "", "q3", "", []⟩

/-- Applies the 9-tuple returned by `run_questions_generation` to the
components listed in the `outputs=` wiring shared by `run_button.click`,
`query_textbox.submit` and `regenerate_button.click`
(`src/deep_research.py` lines 78-87 and 105-109). -/
def applyGenOutputs (st : UIState) (r : GenOutputs) : UIState :=
  ⟨some r.storedQuery, some r.storedQ1, some r.storedQ2, some r.storedQ3,
   st.queryTextbox, r.firstSectionVisible, r.followupVisible,
   r.q1Label, r.q1Value, r.q2Label, r.q2Value, r.q3Label, r.q3Value, st.report⟩

/-- One generation round: call `run_questions_generation` on the current
topic-textbox value (all three click wirings use `inputs=query_textbox`)
and apply its outputs; on an indexing fault no output is applied. -/
def stepGenerate (agent : String → Questions) (st : UIState) : UIState :=
  match run_questions_generation agent st.queryTextbox with
  | some r => applyGenOutputs st r
  | none => st

/-- The argument the `regenerate_button.click` wiring passes to
`run_questions_generation`: `inputs=query_textbox`
(`src/deep_research.py` line 107), i.e. the current textbox value. -/
def regenerateArg (st : UIState) : String :=
  st.queryTextbox

/-- User actions the wizard reacts to: typing in the topic textbox,
the Run button (or submit-on-enter), the Regenerate button, typing an
answer into one of `q1 q2 q3`, and the Continue button. -/
inductive UIAction where
  | editTopic (s : String)
  | submit
  | regenerate
  | editA1 (s : String)
  | editA2 (s : String)
  | editA3 (s : String)
  | continueResearch
deriving DecidableEq, Repr

/-- One UI step.  Controls are only operable while their section is
visible: the topic textbox and Run button live in `first_section`, the
answer boxes and the Regenerate/Continue buttons in `followup_section`.
`continueResearch` embeds `continue_button.click` (lines 91-103): it
runs `run_full` on the stored query/questions and the three answer-box
values and renders the resulting chunks to the report area. -/
def step (agent : String → Questions) (rm : String → List String)
    (st : UIState) : UIAction → UIState
  | .editTopic s =>
      if st.firstVisible then
        ⟨st.storedQuery, st.storedQ1, st.storedQ2, st.storedQ3, s,
         st.firstVisible, st.followupVisible, st.q1Label, st.q1Value,
         st.q2Label, st.q2Value, st.q3Label, st.q3Value, st.report⟩
      else st
  | .submit => if st.firstVisible then stepGenerate agent st else st
  | .regenerate => if st.followupVisible then stepGenerate agent st else st
  | .editA1 s =>
      if st.followupVisible then
        ⟨st.storedQuery, st.storedQ1, st.storedQ2, st.storedQ3, st.queryTextbox,
         st.firstVisible, st.followupVisible, st.q1Label, s,
         st.q2Label, st.q2Value, st.q3Label, st.q3Value, st.report⟩
      else st
  | .editA2 s =>
      if st.followupVisible then
        ⟨st.storedQuery, st.storedQ1, st.storedQ2, st.storedQ3, st.queryTextbox,
         st.firstVisible, st.followupVisible, st.q1Label, st.q1Value,
         st.q2Label, s, st.q3Label, st.q3Value, st.report⟩
      else st
  | .editA3 s =>
      if st.followupVisible then
        ⟨st.storedQuery, st.storedQ1, st.storedQ2, st.storedQ3, st.queryTextbox,
         st.firstVisible, st.followupVisible, st.q1Label, st.q1Value,
         st.q2Label, st.q2Value, st.q3Label, s, st.report⟩
      else st
  | .continueResearch =>
      if st.followupVisible then
        match st.storedQuery, st.storedQ1, st.storedQ2, st.storedQ3 with
        | some t, some sq1, some sq2, some sq3 =>
            ⟨st.storedQuery, st.storedQ1, st.storedQ2, st.storedQ3, st.queryTextbox,
             st.firstVisible, st.followupVisible, st.q1Label, st.q1Value,
             st.q2Label, st.q2Value, st.q3Label, st.q3Value,
             run_full rm t sq1 sq2 sq3 st.q1Value st.q2Value st.q3Value⟩
        | _, _, _, _ => st
      else st

/-- Runs a list of user actions from a given state. -/
def runActions (agent : String → Questions) (rm : String → List String)
    (st : UIState) : List UIAction → UIState
  | [] => st
  | a :: acts => runActions agent rm (step agent rm st a) acts

/-- A sample generation agent that always returns the three questions
`QA`, `QB`, `QC`, used to instantiate concrete scenarios. -/
def demoAgent : String → Questions := fun _ => ⟨[⟨"QA"⟩, ⟨"QB"⟩, ⟨"QC"⟩]⟩

/-- A sample research stream used to instantiate concrete scenarios. -/
def demoStream : String → List String := fun _ => ["chunk1", "chunk2"]

/-- The state after typing topic `A` and pressing Run, with the demo
agent answering the generation call. -/
def submittedState : UIState :=
  runActions demoAgent demoStream initState [UIAction.editTopic "A", UIAction.submit]

/-- The state after typing topic `A`, pressing Run, and then editing
the (still visible) topic textbox to `B`. -/
def editedState : UIState :=
  runActions demoAgent demoStream initState
    [UIAction.editTopic "A", UIAction.submit, UIAction.editTopic "B"]

theorem enrichQuery_data (t q1 q2 q3 a1 a2 a3 : String) :
    (enrichQuery t q1 q2 q3 a1 a2 a3).data =
      "\n        Main Topic:\n        ".data ++ (t.data ++
      ("\n        Clarifications:\n        Q1: ".data ++ (q1.data ++
      ("\n        A1: ".data ++ (a1.data ++
      ("\n        Q2: ".data ++ (q2.data ++
      ("\n        A2: ".data ++ (a2.data ++
      ("\n        Q3: ".data ++ (q3.data ++
      ("\n        A3: ".data ++ (a3.data ++ "\n    ".data))))))))))))) := by
  simp [enrichQuery, String.data_append]

theorem enrichQuery_data_split (t q1 q2 q3 a1 a2 a3 : String) :
    (enrichQuery t q1 q2 q3 a1 a2 a3).data =
      "\n        ".data ++ ("Main Topic:".data ++ ("\n        ".data ++ (t.data ++
      ("\n        ".data ++ ("Clarifications:".data ++ ("\n        ".data ++ ("Q1:".data ++ (" ".data ++ (q1.data ++
      ("\n        ".data ++ ("A1:".data ++ (" ".data ++ (a1.data ++
      ("\n        ".data ++ ("Q2:".data ++ (" ".data ++ (q2.data ++
      ("\n        ".data ++ ("A2:".data ++ (" ".data ++ (a2.data ++
      ("\n        ".data ++ ("Q3:".data ++ (" ".data ++ (q3.data ++
      ("\n        ".data ++ ("A3:".data ++ (" ".data ++ (a3.data ++
      "\n    ".data))))))))))))))))))))))))))))) := by
  have e0 : "\n        Main Topic:\n        ".data =
      "\n        ".data ++ ("Main Topic:".data ++ "\n        ".data) := rfl
  have e1 : "\n        Clarifications:\n        Q1: ".data =
      "\n        ".data ++ ("Clarifications:".data ++ ("\n        ".data ++ ("Q1:".data ++ " ".data))) := rfl
  have e2 : "\n        A1: ".data = "\n        ".data ++ ("A1:".data ++ " ".data) := rfl
  have e3 : "\n        Q2: ".data = "\n        ".data ++ ("Q2:".data ++ " ".data) := rfl
  have e4 : "\n        A2: ".data = "\n        ".data ++ ("A2:".data ++ " ".data) := rfl
  have e5 : "\n        Q3: ".data = "\n        ".data ++ ("Q3:".data ++ " ".data) := rfl
  have e6 : "\n        A3: ".data = "\n        ".data ++ ("A3:".data ++ " ".data) := rfl
  rw [enrichQuery_data, e0, e1, e2, e3, e4, e5, e6]
  simp [List.append_assoc]

theorem appearInOrder_skip (c s : List Char) (ps : List (List Char))
    (h : appearInOrder s ps) : appearInOrder (c ++ s) ps := by
  cases ps with
  | nil => trivial
  | cons p rest =>
      obtain ⟨l, r, hs, h2⟩ := h
      exact ⟨c ++ l, r, by rw [hs]; simp [List.append_assoc], h2⟩

theorem appearInOrder_take (p s : List Char) (ps : List (List Char))
    (h : appearInOrder s ps) : appearInOrder (p ++ s) (p :: ps) :=
  ⟨[], s, rfl, h⟩

theorem isSubstrOf_skip (c s p : List Char) (h : isSubstrOf p s) :
    isSubstrOf p (c ++ s) := by
  obtain ⟨l, r, hs⟩ := h
  exact ⟨c ++ l, r, by rw [hs]; simp [List.append_assoc]⟩

theorem isSubstrOf_here (p r : List Char) : isSubstrOf p (p ++ r) :=
  ⟨[], r, rfl⟩

theorem enrichQuery_length (t q1 q2 q3 a1 a2 a3 : String) :
    (enrichQuery t q1 q2 q3 a1 a2 a3).data.length =
      136 + (t.data.length + (q1.data.length + (a1.data.length + (q2.data.length +
        (a2.data.length + (q3.data.length + a3.data.length)))))) := by
  have l0 : "\n        Main Topic:\n        ".data.length = 29 := rfl
  have l1 : "\n        Clarifications:\n        Q1: ".data.length = 37 := rfl
  have l2 : "\n        A1: ".data.length = 13 := rfl
  have l3 : "\n        Q2: ".data.length = 13 := rfl
  have l4 : "\n        A2: ".data.length = 13 := rfl
  have l5 : "\n        Q3: ".data.length = 13 := rfl
  have l6 : "\n        A3: ".data.length = 13 := rfl
  have l7 : "\n    ".data.length = 5 := rfl
  rw [enrichQuery_data]
  simp [List.length_append, l0, l1, l2, l3, l4, l5, l6, l7]
  omega

set_option maxRecDepth 10000 in
/-- C1 (counterexample): with all seven inputs equal to `"x"`, the
output of `enrichQuery` does not contain the input `"x"` as a substring
exactly once (it occurs seven times), refuting the claim that every
7-tuple yields each input exactly once. -/
theorem enrichQuery_repeated_input_not_once :
    countOccur ("x".data) ((enrichQuery "x" "x" "x" "x" "x" "x" "x").data) ≠ 1 := by
  decide

/-- C1 (amended): for every 7-tuple of strings, the string returned by
`enrichQuery` contains each of the seven inputs as a substring, with
occurrences appearing in the fixed order topic, q1, a1, q2, a2, q3, a3;
the inputs need not occur exactly once (duplicate or empty inputs, or
inputs that also occur in the fixed template text, occur more often). -/
theorem enrichQuery_contains_inputs_in_order (t q1 q2 q3 a1 a2 a3 : String) :
    appearInOrder (enrichQuery t q1 q2 q3 a1 a2 a3).data
      [t.data, q1.data, a1.data, q2.data, a2.data, q3.data, a3.data] := by
  rw [enrichQuery_data]
  exact appearInOrder_skip _ _ _ (appearInOrder_take _ _ _
    (appearInOrder_skip _ _ _ (appearInOrder_take _ _ _
    (appearInOrder_skip _ _ _ (appearInOrder_take _ _ _
    (appearInOrder_skip _ _ _ (appearInOrder_take _ _ _
    (appearInOrder_skip _ _ _ (appearInOrder_take _ _ _
    (appearInOrder_skip _ _ _ (appearInOrder_take _ _ _
    (appearInOrder_skip _ _ _ (appearInOrder_take _ _ _ trivial)))))))))))))

/-- C2: for every research-manager stream `rm` and every 7-tuple of
input strings, the sequence of chunks yielded by `run_full` equals,
element for element and in arrival order, the sequence yielded by the
research manager's `run_full` applied to `enrichQuery` of that tuple:
no chunk is dropped, duplicated, or reordered. -/
theorem run_full_forwards_stream (rm : String → List String)
    (t q1 q2 q3 a1 a2 a3 : String) :
    run_full rm t q1 q2 q3 a1 a2 a3 = rm (enrichQuery t q1 q2 q3 a1 a2 a3) := by
  have h : ∀ l : List String, forwardChunks l = l := by
    intro l
    induction l with
    | nil => rfl
    | cons c rest ih => simp [forwardChunks, ih]
  simp [run_full, h]

/-- C3: `run_questions_generation` hits the indexing fault (modeled as
`none`) exactly when the generation agent returns fewer than 3
questions; with at least 3 questions no indexing fault occurs. -/
theorem run_questions_generation_none_iff_short (agent : String → Questions) (query : String) :
    run_questions_generation agent query = none ↔ (agent query).questions.length < 3 := by
  rcases h : (agent query).questions with _ | ⟨a, _ | ⟨b, _ | ⟨c, rest⟩⟩⟩ <;>
    simp [run_questions_generation, h]

/-- C4 (code evaluated at the failing input): on a successful topic
submission the update returned by `run_questions_generation` reveals
the follow-up section and labels the three answer fields with the
generated question texts, but the update sent to the topic-input
section is `visible=True`, so the topic section is not hidden —
contradicting the source's own comment `# hide first input section`
and the claim. -/
theorem run_questions_generation_keeps_first_section_visible :
    (run_questions_generation demoAgent "topic").map
        (fun r => (r.firstSectionVisible, r.followupVisible, r.q1Label, r.q2Label, r.q3Label)) =
      some (true, true, "QA", "QB", "QC") := by
  decide

/-- C5 (counterexample): after submitting topic `A` and then editing
the still-visible topic textbox to `B`, the wizard is in the
answer-collection state with stored topic `A`, yet the regenerate
wiring (`inputs=query_textbox`) passes `B` to the generation agent and
the regenerate action overwrites the stored topic with `B` — refuting
both that the agent is re-invoked with the stored topic and that the
stored topic is unchanged. -/
theorem regenerate_after_edit_changes_stored_topic :
    editedState.followupVisible = true ∧
    editedState.storedQuery = some "A" ∧
    regenerateArg editedState = "B" ∧
    (step demoAgent demoStream editedState UIAction.regenerate).storedQuery = some "B" ∧
    (step demoAgent demoStream editedState UIAction.regenerate).storedQuery ≠
      editedState.storedQuery := by
  decide

/-- C5 (amended): every regenerate action taken in the
answer-collection state re-invokes the generation agent with the
current value of the topic textbox and overwrites the stored topic
with that value; when the textbox still holds the stored topic (it was
not edited since the last generation), this coincides with re-invoking
on the stored topic and the stored topic is unchanged by the action. -/
theorem regenerate_uses_textbox_value (agent : String → Questions)
    (rm : String → List String) (st : UIState)
    (hvis : st.followupVisible = true)
    (h3 : 3 ≤ (agent st.queryTextbox).questions.length) :
    regenerateArg st = st.queryTextbox ∧
    (step agent rm st UIAction.regenerate).storedQuery = some st.queryTextbox ∧
    (st.storedQuery = some st.queryTextbox →
      (step agent rm st UIAction.regenerate).storedQuery = st.storedQuery) := by
  rcases hl : (agent st.queryTextbox).questions with _ | ⟨a, _ | ⟨b, _ | ⟨c, rest⟩⟩⟩ <;>
    rw [hl] at h3 <;>
    simp_all [step, stepGenerate, run_questions_generation, applyGenOutputs,
      regenerateArg, hl, hvis]

/-- C5 (witness): the amended statement instantiated in the state
reached by submitting topic `A` with the demo agent and then editing
the still-visible topic textbox to `B`, so the overwrite conclusion is
exercised at a state where textbox and stored topic differ. -/
theorem regenerate_uses_textbox_value_witness :
    regenerateArg editedState = editedState.queryTextbox ∧
    (step demoAgent demoStream editedState UIAction.regenerate).storedQuery =
      some editedState.queryTextbox ∧
    (editedState.storedQuery = some editedState.queryTextbox →
      (step demoAgent demoStream editedState UIAction.regenerate).storedQuery =
        editedState.storedQuery) :=
  regenerate_uses_textbox_value demoAgent demoStream editedState
    (by decide) (by decide)

/-- C6 (code evaluated at the failing input): after a successful topic
submission both the topic-input section and the follow-up section are
visible, because the submit handler sends `visible=True` to
`first_section` (its own comment says to hide it) — so the
topic-submission controls and the answer/continue controls are not
mutually exclusive, refuting the claim for reachable states. -/
theorem submit_makes_both_sections_visible :
    submittedState.firstVisible = true ∧ submittedState.followupVisible = true := by
  decide

/-- C7: whenever the generation agent returns question texts `Q1.question`,
`Q2.question`, `Q3.question` at positions 0, 1, 2, the update returned
by `run_questions_generation` resets each of the three answer fields to
the empty string, relabels field `i` with the `i`-th question text,
replaces all three stored questions with the new texts, and stores the
submitted topic. -/
theorem generation_resets_answers_and_relabels (agent : String → Questions) (query : String)
    (Q1 Q2 Q3 : Question)
    (h0 : (agent query).questions[0]? = some Q1)
    (h1 : (agent query).questions[1]? = some Q2)
    (h2 : (agent query).questions[2]? = some Q3) :
    ∃ r, run_questions_generation agent query = some r ∧
      r.q1Value = "" ∧ r.q2Value = "" ∧ r.q3Value = "" ∧
      r.q1Label = Q1.question ∧ r.q2Label = Q2.question ∧ r.q3Label = Q3.question ∧
      r.storedQ1 = Q1.question ∧ r.storedQ2 = Q2.question ∧ r.storedQ3 = Q3.question ∧
      r.storedQuery = query := by
  simp only [run_questions_generation, h0, h1, h2, Option.some_bind]
  exact ⟨_, rfl, rfl, rfl, rfl, rfl, rfl, rfl, rfl, rfl, rfl, rfl⟩

/-- C7 (witness): the statement instantiated with the demo agent, whose
three questions are `QA`, `QB`, `QC`. -/
theorem generation_resets_answers_and_relabels_witness :
    ∃ r, run_questions_generation demoAgent "topic" = some r ∧
      r.q1Value = "" ∧ r.q2Value = "" ∧ r.q3Value = "" ∧
      r.q1Label = "QA" ∧ r.q2Label = "QB" ∧ r.q3Label = "QC" ∧
      r.storedQ1 = "QA" ∧ r.storedQ2 = "QB" ∧ r.storedQ3 = "QC" ∧
      r.storedQuery = "topic" :=
  generation_resets_answers_and_relabels demoAgent "topic" ⟨"QA"⟩ ⟨"QB"⟩ ⟨"QC"⟩ rfl rfl rfl

/-- C8: for every 7-tuple in which one or more answer strings are
empty, `enrichQuery` passes them through verbatim: the output keeps
the full fixed pairing structure — topic, then the `Q1:`/`A1:`,
`Q2:`/`A2:`, `Q3:`/`A3:` pairs in order with each (possibly empty)
answer in place — no answer is dropped, and the function is total, so
no validation error is raised. -/
theorem enrichQuery_keeps_empty_answers_in_structure (t q1 q2 q3 a1 a2 a3 : String)
    (h : a1 = "" ∨ a2 = "" ∨ a3 = "") :
    appearInOrder (enrichQuery t q1 q2 q3 a1 a2 a3).data
      [t.data, "Q1:".data, q1.data, "A1:".data, a1.data,
       "Q2:".data, q2.data, "A2:".data, a2.data,
       "Q3:".data, q3.data, "A3:".data, a3.data] := by
  rw [enrichQuery_data_split]
  exact appearInOrder_skip _ _ _ (appearInOrder_skip _ _ _ (appearInOrder_skip _ _ _
    (appearInOrder_take _ _ _ (appearInOrder_skip _ _ _ (appearInOrder_skip _ _ _
    (appearInOrder_skip _ _ _ (appearInOrder_take _ _ _ (appearInOrder_skip _ _ _
    (appearInOrder_take _ _ _ (appearInOrder_skip _ _ _ (appearInOrder_take _ _ _
    (appearInOrder_skip _ _ _ (appearInOrder_take _ _ _ (appearInOrder_skip _ _ _
    (appearInOrder_take _ _ _ (appearInOrder_skip _ _ _ (appearInOrder_take _ _ _
    (appearInOrder_skip _ _ _ (appearInOrder_take _ _ _ (appearInOrder_skip _ _ _
    (appearInOrder_take _ _ _ (appearInOrder_skip _ _ _ (appearInOrder_take _ _ _
    (appearInOrder_skip _ _ _ (appearInOrder_take _ _ _ (appearInOrder_skip _ _ _
    (appearInOrder_take _ _ _ (appearInOrder_skip _ _ _ (appearInOrder_take _ _ _
    trivial)))))))))))))))))))))))))))))

/-- C8 (witness): the statement instantiated at a concrete tuple whose
first answer is the empty string. -/
theorem enrichQuery_keeps_empty_answers_in_structure_witness :
    appearInOrder (enrichQuery "T" "QQ1" "QQ2" "QQ3" "" "ans2" "ans3").data
      ["T".data, "Q1:".data, "QQ1".data, "A1:".data, "".data,
       "Q2:".data, "QQ2".data, "A2:".data, "ans2".data,
       "Q3:".data, "QQ3".data, "A3:".data, "ans3".data] :=
  enrichQuery_keeps_empty_answers_in_structure "T" "QQ1" "QQ2" "QQ3" "" "ans2" "ans3"
    (Or.inl rfl)

/-- C9: the `Questions` schema does not enforce cardinality — for every
natural number `n` there is a valid `Questions` value whose list of
questions has length `n`; the exactly-3 contract is not enforced at
this layer. -/
theorem Questions_length_unconstrained (n : Nat) :
    ∃ qs : Questions, qs.questions.length = n :=
  ⟨⟨List.replicate n ⟨"q"⟩⟩, List.length_replicate n _⟩

/-- C10: for every 7-tuple of input strings, the output of
`enrichQuery` contains the literal markers `Main Topic:`,
`Clarifications:`, `Q1:`, `A1:`, `Q2:`, `A2:`, `Q3:`, `A3:`, begins
with a newline character, is never the empty string, and is never
equal to the raw topic alone. -/
theorem enrichQuery_template_invariants (t q1 q2 q3 a1 a2 a3 : String) :
    isSubstrOf "Main Topic:".data (enrichQuery t q1 q2 q3 a1 a2 a3).data ∧
    isSubstrOf "Clarifications:".data (enrichQuery t q1 q2 q3 a1 a2 a3).data ∧
    isSubstrOf "Q1:".data (enrichQuery t q1 q2 q3 a1 a2 a3).data ∧
    isSubstrOf "A1:".data (enrichQuery t q1 q2 q3 a1 a2 a3).data ∧
    isSubstrOf "Q2:".data (enrichQuery t q1 q2 q3 a1 a2 a3).data ∧
    isSubstrOf "A2:".data (enrichQuery t q1 q2 q3 a1 a2 a3).data ∧
    isSubstrOf "Q3:".data (enrichQuery t q1 q2 q3 a1 a2 a3).data ∧
    isSubstrOf "A3:".data (enrichQuery t q1 q2 q3 a1 a2 a3).data ∧
    (enrichQuery t q1 q2 q3 a1 a2 a3).data.head? = some '\n' ∧
    enrichQuery t q1 q2 q3 a1 a2 a3 ≠ "" ∧
    enrichQuery t q1 q2 q3 a1 a2 a3 ≠ t := by
  have hlen := enrichQuery_length t q1 q2 q3 a1 a2 a3
  refine ⟨?_, ?_, ?_, ?_, ?_, ?_, ?_, ?_, ?_, ?_, ?_⟩
  · rw [enrichQuery_data_split]
    exact isSubstrOf_skip _ _ _ (isSubstrOf_here _ _)
  · rw [enrichQuery_data_split]
    exact isSubstrOf_skip _ _ _ (isSubstrOf_skip _ _ _ (isSubstrOf_skip _ _ _
      (isSubstrOf_skip _ _ _ (isSubstrOf_skip _ _ _ (isSubstrOf_here _ _)))))
  · rw [enrichQuery_data_split]
    exact isSubstrOf_skip _ _ _ (isSubstrOf_skip _ _ _ (isSubstrOf_skip _ _ _
      (isSubstrOf_skip _ _ _ (isSubstrOf_skip _ _ _ (isSubstrOf_skip _ _ _
      (isSubstrOf_skip _ _ _ (isSubstrOf_here _ _)))))))
  · rw [enrichQuery_data_split]
    exact isSubstrOf_skip _ _ _ (isSubstrOf_skip _ _ _ (isSubstrOf_skip _ _ _
      (isSubstrOf_skip _ _ _ (isSubstrOf_skip _ _ _ (isSubstrOf_skip _ _ _
      (isSubstrOf_skip _ _ _ (isSubstrOf_skip _ _ _ (isSubstrOf_skip _ _ _
      (isSubstrOf_skip _ _ _ (isSubstrOf_skip _ _ _ (isSubstrOf_here _ _)))))))))))
  · rw [enrichQuery_data_split]
    exact isSubstrOf_skip _ _ _ (isSubstrOf_skip _ _ _ (isSubstrOf_skip _ _ _
      (isSubstrOf_skip _ _ _ (isSubstrOf_skip _ _ _ (isSubstrOf_skip _ _ _
      (isSubstrOf_skip _ _ _ (isSubstrOf_skip _ _ _ (isSubstrOf_skip _ _ _
      (isSubstrOf_skip _ _ _ (isSubstrOf_skip _ _ _ (isSubstrOf_skip _ _ _
      (isSubstrOf_skip _ _ _ (isSubstrOf_skip _ _ _ (isSubstrOf_skip _ _ _
      (isSubstrOf_here _ _)))))))))))))))
  · rw [enrichQuery_data_split]
    exact isSubstrOf_skip _ _ _ (isSubstrOf_skip _ _ _ (isSubstrOf_skip _ _ _
      (isSubstrOf_skip _ _ _ (isSubstrOf_skip _ _ _ (isSubstrOf_skip _ _ _
      (isSubstrOf_skip _ _ _ (isSubstrOf_skip _ _ _ (isSubstrOf_skip _ _ _
      (isSubstrOf_skip _ _ _ (isSubstrOf_skip _ _ _ (isSubstrOf_skip _ _ _
      (isSubstrOf_skip _ _ _ (isSubstrOf_skip _ _ _ (isSubstrOf_skip _ _ _
      (isSubstrOf_skip _ _ _ (isSubstrOf_skip _ _ _ (isSubstrOf_skip _ _ _
      (isSubstrOf_skip _ _ _ (isSubstrOf_here _ _)))))))))))))))))))
  · rw [enrichQuery_data_split]
    exact isSubstrOf_skip _ _ _ (isSubstrOf_skip _ _ _ (isSubstrOf_skip _ _ _
      (isSubstrOf_skip _ _ _ (isSubstrOf_skip _ _ _ (isSubstrOf_skip _ _ _
      (isSubstrOf_skip _ _ _ (isSubstrOf_skip _ _ _ (isSubstrOf_skip _ _ _
      (isSubstrOf_skip _ _ _ (isSubstrOf_skip _ _ _ (isSubstrOf_skip _ _ _
      (isSubstrOf_skip _ _ _ (isSubstrOf_skip _ _ _ (isSubstrOf_skip _ _ _
      (isSubstrOf_skip _ _ _ (isSubstrOf_skip _ _ _ (isSubstrOf_skip _ _ _
      (isSubstrOf_skip _ _ _ (isSubstrOf_skip _ _ _ (isSubstrOf_skip _ _ _
      (isSubstrOf_skip _ _ _ (isSubstrOf_skip _ _ _ (isSubstrOf_here _ _)))))))))))))))))))))))
  · rw [enrichQuery_data_split]
    exact isSubstrOf_skip _ _ _ (isSubstrOf_skip _ _ _ (isSubstrOf_skip _ _ _
      (isSubstrOf_skip _ _ _ (isSubstrOf_skip _ _ _ (isSubstrOf_skip _ _ _
      (isSubstrOf_skip _ _ _ (isSubstrOf_skip _ _ _ (isSubstrOf_skip _ _ _
      (isSubstrOf_skip _ _ _ (isSubstrOf_skip _ _ _ (isSubstrOf_skip _ _ _
      (isSubstrOf_skip _ _ _ (isSubstrOf_skip _ _ _ (isSubstrOf_skip _ _ _
      (isSubstrOf_skip _ _ _ (isSubstrOf_skip _ _ _ (isSubstrOf_skip _ _ _
      (isSubstrOf_skip _ _ _ (isSubstrOf_skip _ _ _ (isSubstrOf_skip _ _ _
      (isSubstrOf_skip _ _ _ (isSubstrOf_skip _ _ _ (isSubstrOf_skip _ _ _
      (isSubstrOf_skip _ _ _ (isSubstrOf_skip _ _ _ (isSubstrOf_skip _ _ _
      (isSubstrOf_here _ _)))))))))))))))))))))))))))
  · rw [enrichQuery_data]
    rfl
  · intro h
    have hlen2 := congrArg (fun s : String => s.data.length) h
    simp only [hlen] at hlen2
    simp at hlen2
  · intro h
    have hlen2 := congrArg (fun s : String => s.data.length) h
    simp only [hlen] at hlen2
    omega

end DeepResearch
